import Mathlib

/-!
Shallow embedding of src/src/App.js (deuglo-infosystem-leaflet-map).

The program is a single React component wiring a Formik form (validated by a
Yup schema), a Leaflet map, a marker-render effect and a fetch against the
Overpass API.  We embed:

  * the Yup validation schema (lines 14-19) as a checker over form values,
    where a latitude/longitude field holds the cast numeric value when the
    input is present and numeric, and none otherwise;
  * fetchQueryDetail (lines 106-120) as a function from the stored form
    input, the current amenity string and a fetch outcome (the environment:
    network success with or without an elements array, or a thrown error)
    to the returned value, the list of HTTP requests issued and the list of
    console-error log lines;
  * createMap (lines 90-103) as a map-state constructor;
  * the marker-render effect (lines 59-87) as a function clearing all marker
    layers and then adding one marker per fetched element;
  * the effect on dependencies queryBy / inputFromForm (lines 46-57) as a
    render cycle: the cleanup removes the previous map widget, a new widget
    is created, the fetch runs and its result is rendered as markers.

JavaScript undefined is modelled by Option.none; string interpolation of
undefined yields the literal string "undefined", as in JS template strings.
-/

/-- A point of interest's tag object: the name tag may be absent. -/
structure Tags where
  name : Option String
  deriving DecidableEq, Repr

/-- One element of the Overpass response: a node with coordinates and an
optional tags object. -/
structure Element where
  lat : ℚ
  lon : ℚ
  tags : Option Tags
  deriving DecidableEq, Repr

/-- The Formik form values at submission time.  The name and type fields are
raw strings; a numeric field carries its cast value, none when the input is
absent or not numeric (the Yup number cast fails exactly then). -/
structure FormValues where
  name : String
  latitude : Option ℚ
  longitude : Option ℚ
  type : String
  deriving DecidableEq, Repr

/-- The Yup validationSchema of App.js lines 14-19: each field is required,
name and type as strings (non-empty), latitude and longitude as numbers.
Returns the list of (field, message) validation errors. -/
def validateForm (v : FormValues) : List (String × String) :=
  (if v.name = "" then [("name", "Name is required")] else []) ++
  (if v.latitude.isNone then [("latitude", "Latitude is required")] else []) ++
  (if v.longitude.isNone then [("longitude", "Longitude is required")] else []) ++
  (if v.type = "" then [("type", "Type is required")] else [])

/-- Formik submits iff the schema reports no errors. -/
def validationAccepts (v : FormValues) : Bool :=
  validateForm v = []

/-- The amenityIcons record of App.js lines 22-27: maps the four amenity
strings to their icon assets; any other key reads as undefined. -/
def amenityIcons (t : String) : Option String :=
  if t = "hospital" then some "./assets/hospital.svg"
  else if t = "school" then some "./assets/school.svg"
  else if t = "restaurant" then some "./assets/restaurant.svg"
  else if t = "place_of_worship" then some "./assets/temple.svg"
  else none

/-- The values offered by the two type drop-downs (typeOptions, lines 30-35). -/
def typeOptionValues : List String :=
  ["restaurant", "hospital", "school", "place_of_worship"]

/-- The Leaflet icon built in the marker effect (lines 61-66): the iconUrl
is amenityIcons[queryBy], undefined when queryBy is not one of the four. -/
structure LIcon where
  iconUrl : Option String
  iconSize : Int × Int
  iconAnchor : Int × Int
  popupAnchor : Int × Int
  deriving DecidableEq, Repr

def selectedIcon (queryBy : String) : LIcon :=
  { iconUrl := amenityIcons queryBy
    iconSize := (32, 32)
    iconAnchor := (16, 32)
    popupAnchor := (0, -32) }

/-- JS template interpolation of a possibly-undefined string. -/
def jsStrOpt : Option String → String
  | none => "undefined"
  | some s => s

/-- JS template interpolation of a number (rendered via the Rat printer). -/
def jsNum (q : ℚ) : String := toString q

/-- JS template interpolation of a possibly-undefined number. -/
def jsNumOpt : Option ℚ → String
  | none => "undefined"
  | some q => jsNum q

/-- The popupContent string of App.js line 82. -/
def popupContent (obj : Element) : String :=
  "<div><b>Name: " ++ jsStrOpt (obj.tags.bind Tags.name) ++
  "</b> <br/> <b>latitude: " ++ jsNum obj.lat ++
  "</b> <br/> <b>longitude: " ++ jsNum obj.lon ++ "</b></div>"

/-- A Leaflet marker as produced by lines 77-85: position, icon, bound popup. -/
structure Marker where
  pos : ℚ × ℚ
  icon : LIcon
  popup : String
  deriving DecidableEq, Repr

/-- The marker created for one fetched element (lines 77-85). -/
def markerOf (queryBy : String) (obj : Element) : Marker :=
  { pos := (obj.lat, obj.lon)
    icon := selectedIcon queryBy
    popup := popupContent obj }

/-- The Leaflet map state: center (from possibly-undefined coordinates),
zoom, and the marker layers currently on the map. -/
structure MapState where
  center : Option ℚ × Option ℚ
  zoom : ℕ
  markers : List Marker
  deriving DecidableEq, Repr

/-- The default center used when no form input was submitted (line 94). -/
def defaultCenter : ℚ × ℚ := (28.7041, 77.1025)

/-- createMap of App.js lines 90-103: centered on the submitted coordinates
when a submission exists, on the default center otherwise; zoom 13; no
markers yet. -/
def createMap (inputFromForm : Option FormValues) : MapState :=
  { center :=
      match inputFromForm with
      | some i => (i.latitude, i.longitude)
      | none => (some defaultCenter.1, some defaultCenter.2)
    zoom := 13
    markers := [] }

/-- Lines 69-73: eachLayer removes every layer that is a Marker. -/
def removeAllMarkers (m : MapState) : MapState :=
  { m with markers := [] }

/-- L.marker(...).addTo(map) for one element (lines 77-79). -/
def addMarker (m : MapState) (mk : Marker) : MapState :=
  { m with markers := m.markers ++ [mk] }

/-- The markers the render effect produces: queryResult?.forEach — an
undefined result adds nothing; a list adds one marker per element. -/
def markersFor (result : Option (List Element)) (queryBy : String) : List Marker :=
  match result with
  | none => []
  | some els => els.map (markerOf queryBy)

/-- The marker-render effect of App.js lines 59-87: first removes every
marker layer from the map, only then iterates over queryResult adding the
new markers. -/
def markerRenderEffect (m : MapState) (result : Option (List Element))
    (queryBy : String) : MapState :=
  (markersFor result queryBy).foldl addMarker (removeAllMarkers m)

/-- An HTTP GET issued to the Overpass endpoint, by its query-string
parameters (line 110): radius, the interpolated coordinates, amenity tag. -/
structure OverpassRequest where
  radius : ℕ
  lat : Option ℚ
  lon : Option ℚ
  amenity : String
  deriving DecidableEq, Repr

/-- The full request URL as interpolated on line 110. -/
def requestUrl (r : OverpassRequest) : String :=
  "https://overpass-api.de/api/interpreter?data=[out:json];node(around:" ++
  toString r.radius ++ "," ++ jsNumOpt r.lat ++ "," ++ jsNumOpt r.lon ++
  ")[amenity=" ++ r.amenity ++ "];out;"

/-- The environment of one call to fetchQueryDetail: the network either
succeeds with a JSON body whose elements member is the given value
(none when the body has no elements array), or the fetch or the JSON parse
throws. -/
inductive FetchOutcome where
  | success (elements : Option (List Element))
  | failure
  deriving DecidableEq, Repr

/-- fetchQueryDetail of App.js lines 106-120.  Returns the value the JS
function returns (undefined when no form input was ever submitted, or when
the body lacks an elements array; the empty list when the try block threw),
together with the requests issued and the console.error lines produced. -/
def fetchQueryDetail (inputFromForm : Option FormValues) (queryBy : String)
    (outcome : FetchOutcome) :
    Option (List Element) × List OverpassRequest × List String :=
  match inputFromForm with
  | none => (none, [], [])
  | some i =>
    let req : OverpassRequest :=
      { radius := 5000, lat := i.latitude, lon := i.longitude, amenity := queryBy }
    match outcome with
    | FetchOutcome.success els => (els, [req], [])
    | FetchOutcome.failure =>
        (some [], [req], ["Error fetching " ++ queryBy ++ " data:"])

/-- An operation on the shared map widget, for tracing widget lifetime. -/
inductive MapOp where
  | remove
  | create (center : Option ℚ × Option ℚ)
  deriving DecidableEq, Repr

/-- Number of live map widgets after a sequence of widget operations,
starting from a given count. -/
def liveAfter (start : ℕ) (ops : List MapOp) : ℕ :=
  ops.foldl
    (fun n op =>
      match op with
      | MapOp.remove => n - 1
      | MapOp.create _ => n + 1)
    start

/-- The component state: the two useState variables, the stored form input
and the map widget held in mapRef. -/
structure AppState where
  queryBy : String
  queryResult : Option (List Element)
  inputFromForm : Option FormValues
  map : MapState
  deriving DecidableEq, Repr

/-- What one completed render cycle produces: the new component state and
the observable effects (requests issued, console-error lines, operations on
the map widget, in order). -/
structure CycleOutput where
  state : AppState
  requests : List OverpassRequest
  logs : List String
  mapOps : List MapOp
  deriving DecidableEq, Repr

/-- One completed render cycle after the effect dependencies queryBy or
inputFromForm changed (App.js lines 46-57 then 59-87): the cleanup removes
the previous widget, createMap builds the new one, fetchQueryDetail runs and
its result is stored, and the marker effect clears and redraws markers from
that result. -/
def renderCycle (s : AppState) (outcome : FetchOutcome) : CycleOutput :=
  let newMap := createMap s.inputFromForm
  let fr := fetchQueryDetail s.inputFromForm s.queryBy outcome
  let result := fr.1
  let finalMap := markerRenderEffect newMap result s.queryBy
  { state := { s with queryResult := result, map := finalMap }
    requests := fr.2.1
    logs := fr.2.2
    mapOps := [MapOp.remove, MapOp.create newMap.center] }

/-- The change handler of the amenity selector (lines 218-221): setQueryBy
with the selected value, which re-runs the effects. -/
def selectAmenity (s : AppState) (v : String) (outcome : FetchOutcome) :
    CycleOutput :=
  renderCycle { s with queryBy := v } outcome

/-- Form submission: Formik runs onSubmit (lines 136-140) only when the
schema accepts; onSubmit stores the values and sets queryBy to the chosen
type, and the effect whose dependencies both changed runs once.  An invalid
submission changes nothing and issues no request. -/
def submitForm (s : AppState) (v : FormValues) (outcome : FetchOutcome) :
    CycleOutput :=
  if validationAccepts v then
    renderCycle { s with inputFromForm := some v, queryBy := v.type } outcome
  else
    { state := s, requests := [], logs := [], mapOps := [] }

/-- A string occurs somewhere inside another. -/
def containsStr (s sub : String) : Prop :=
  ∃ pre post, s = pre ++ sub ++ post

/-! ## Helper lemmas -/

theorem containsStr_intro (pre sub post s : String)
    (h : s = pre ++ sub ++ post) : containsStr s sub :=
  ⟨pre, post, h⟩

theorem foldl_addMarker_markers (l : List Marker) (m : MapState) :
    (l.foldl addMarker m).markers = m.markers ++ l := by
  induction l generalizing m with
  | nil => simp
  | cons a t ih => simp [List.foldl, addMarker, ih]

theorem markerRenderEffect_markers (m : MapState)
    (r : Option (List Element)) (qb : String) :
    (markerRenderEffect m r qb).markers = markersFor r qb := by
  simp [markerRenderEffect, foldl_addMarker_markers, removeAllMarkers]

/-! ## Concrete data used by witnesses -/

/-- A sample element carrying a name tag. -/
def eNamed : Element :=
  { lat := 28, lon := 77, tags := some { name := some "Apollo" } }

/-- A sample element with no tags object at all. -/
def eNoName : Element :=
  { lat := 12, lon := 75, tags := none }

/-- The valid form values of the spec's testable property. -/
def vX : FormValues :=
  { name := "X", latitude := some 28.7, longitude := some 77.1, type := "hospital" }

/-- The component state after the submission of vX. -/
def sSubmitted : AppState :=
  { queryBy := "hospital"
    queryResult := some []
    inputFromForm := some vX
    map := createMap (some vX) }

/-! ## Claims -/

/-- Claim C1: after a render cycle completes, the markers on the map are
exactly those derived from the most recent fetch result for the currently
selected amenity type; since the render effect clears all marker layers
before adding, every marker on the map comes from the latest result and no
marker from a previous fetch or type remains (the outcome is independent of
whatever markers were on the map before). -/
theorem renderCycle_markers_match_latest_fetch (s : AppState) (o : FetchOutcome) :
    (renderCycle s o).state.map.markers
      = markersFor (renderCycle s o).state.queryResult s.queryBy ∧
    (renderCycle s o).state.queryResult
      = (fetchQueryDetail s.inputFromForm s.queryBy o).1 ∧
    (∀ mk ∈ (renderCycle s o).state.map.markers,
      ∃ obj, obj ∈ ((renderCycle s o).state.queryResult.getD [])
        ∧ mk = markerOf s.queryBy obj) ∧
    (∀ mPrev : MapState,
      (markerRenderEffect mPrev (renderCycle s o).state.queryResult s.queryBy).markers
        = (renderCycle s o).state.map.markers) := by
  refine ⟨?_, rfl, ?_, ?_⟩
  · simp [renderCycle, markerRenderEffect_markers]
  · intro mk hmk
    simp only [renderCycle, markerRenderEffect_markers] at hmk
    cases hres : (fetchQueryDetail s.inputFromForm s.queryBy o).1 with
    | none => simp [renderCycle, hres, markersFor] at hmk
    | some els =>
        simp only [hres, markersFor] at hmk
        rcases List.mem_map.mp hmk with ⟨obj, hobj, hef⟩
        exact ⟨obj, by simpa [renderCycle, hres] using hobj, hef.symm⟩
  · intro mPrev
    simp [renderCycle, markerRenderEffect_markers]

/-- Witness for C1 at a concrete state and outcome. -/
theorem renderCycle_markers_match_latest_fetch_holds :
    (renderCycle sSubmitted (FetchOutcome.success (some [eNamed]))).state.map.markers
      = markersFor (some [eNamed]) "hospital" ∧
    (∃ obj, obj ∈ ((renderCycle sSubmitted
          (FetchOutcome.success (some [eNamed]))).state.queryResult.getD [])
        ∧ markerOf "hospital" eNamed = markerOf "hospital" obj) := by
  have h := renderCycle_markers_match_latest_fetch sSubmitted
    (FetchOutcome.success (some [eNamed]))
  refine ⟨?_, ?_⟩
  · rw [h.1, h.2.1]
    rfl
  · exact h.2.2.1 (markerOf "hospital" eNamed) (by
      rw [h.1, h.2.1]
      simp [fetchQueryDetail, sSubmitted, markersFor])

/-- Claim C2: when the form input is present and the network request or the
JSON parse throws, fetchQueryDetail logs the error and returns the empty
list, the subsequent render leaves zero markers on the map, and exactly one
request was attempted (no retry); the routine returns normally, so no error
propagates to the caller. -/
theorem fetchQueryDetail_failure_logs_and_empty (s : AppState) (i : FormValues)
    (h : s.inputFromForm = some i) :
    (fetchQueryDetail s.inputFromForm s.queryBy FetchOutcome.failure).1 = some [] ∧
    (renderCycle s FetchOutcome.failure).logs
      = ["Error fetching " ++ s.queryBy ++ " data:"] ∧
    (renderCycle s FetchOutcome.failure).state.map.markers = [] ∧
    (renderCycle s FetchOutcome.failure).requests.length = 1 := by
  refine ⟨?_, ?_, ?_, ?_⟩
  · simp [fetchQueryDetail, h]
  · simp [renderCycle, fetchQueryDetail, h]
  · simp [renderCycle, fetchQueryDetail, h, markerRenderEffect_markers, markersFor]
  · simp [renderCycle, fetchQueryDetail, h]

/-- Witness for C2 at a concrete submitted state. -/
theorem fetchQueryDetail_failure_logs_and_empty_holds :
    sSubmitted.inputFromForm = some vX ∧
    (fetchQueryDetail sSubmitted.inputFromForm sSubmitted.queryBy
        FetchOutcome.failure).1 = some [] ∧
    (renderCycle sSubmitted FetchOutcome.failure).state.map.markers = [] :=
  ⟨rfl, (fetchQueryDetail_failure_logs_and_empty sSubmitted vX rfl).1,
    (fetchQueryDetail_failure_logs_and_empty sSubmitted vX rfl).2.2.1⟩

/-- Claim C9: called before any submission, or on a successful response whose
body lacks an elements array, fetchQueryDetail returns undefined (not a
list), and the marker renderer treats the undefined result via optional
chaining, adding zero markers. -/
theorem fetchQueryDetail_undefined_result (qb : String) (o : FetchOutcome)
    (i : FormValues) (m : MapState) :
    (fetchQueryDetail none qb o).1 = none ∧
    (fetchQueryDetail (some i) qb (FetchOutcome.success none)).1 = none ∧
    (∀ l : List Element, (fetchQueryDetail none qb o).1 ≠ some l) ∧
    (markerRenderEffect m none qb).markers = [] := by
  refine ⟨rfl, rfl, ?_, ?_⟩
  · intro l
    simp [fetchQueryDetail]
  · rw [markerRenderEffect_markers]
    rfl

/-- Witness for C9 at concrete arguments. -/
theorem fetchQueryDetail_undefined_result_holds :
    (fetchQueryDetail none "hospital" (FetchOutcome.success (some [eNamed]))).1 = none ∧
    (fetchQueryDetail none "hospital" (FetchOutcome.success (some [eNamed]))).1 ≠ some [] ∧
    (markerRenderEffect (createMap none) none "hospital").markers = [] :=
  ⟨(fetchQueryDetail_undefined_result "hospital"
      (FetchOutcome.success (some [eNamed])) vX (createMap none)).1,
   (fetchQueryDetail_undefined_result "hospital"
      (FetchOutcome.success (some [eNamed])) vX (createMap none)).2.2.1 [],
   (fetchQueryDetail_undefined_result "hospital"
      (FetchOutcome.success (some [eNamed])) vX (createMap none)).2.2.2⟩

/-- Claim C3: for a fetch result list of length N the render adds exactly N
markers, one per element at that element's coordinates with the icon of the
current amenity type, and each popup text contains the element's name (when
it has one), its latitude and its longitude. -/
theorem markerRender_one_marker_per_element (els : List Element) (qb : String)
    (m : MapState) :
    (markerRenderEffect m (some els) qb).markers.length = els.length ∧
    (markerRenderEffect m (some els) qb).markers = els.map (markerOf qb) ∧
    ∀ obj, obj ∈ els →
      (markerOf qb obj).pos = (obj.lat, obj.lon) ∧
      (markerOf qb obj).icon = selectedIcon qb ∧
      (∀ nm, obj.tags.bind Tags.name = some nm →
        containsStr (markerOf qb obj).popup nm) ∧
      containsStr (markerOf qb obj).popup (jsNum obj.lat) ∧
      containsStr (markerOf qb obj).popup (jsNum obj.lon) := by
  refine ⟨?_, ?_, ?_⟩
  · rw [markerRenderEffect_markers]
    simp [markersFor]
  · rw [markerRenderEffect_markers]
    rfl
  · intro obj _
    refine ⟨rfl, rfl, ?_, ?_, ?_⟩
    · intro nm h
      exact ⟨"<div><b>Name: ",
        "</b> <br/> <b>latitude: " ++ jsNum obj.lat ++
          "</b> <br/> <b>longitude: " ++ jsNum obj.lon ++ "</b></div>",
        by simp [markerOf, popupContent, h, jsStrOpt, String.append_assoc]⟩
    · exact ⟨"<div><b>Name: " ++ jsStrOpt (obj.tags.bind Tags.name) ++
          "</b> <br/> <b>latitude: ",
        "</b> <br/> <b>longitude: " ++ jsNum obj.lon ++ "</b></div>",
        by simp [markerOf, popupContent, String.append_assoc]⟩
    · exact ⟨"<div><b>Name: " ++ jsStrOpt (obj.tags.bind Tags.name) ++
          "</b> <br/> <b>latitude: " ++ jsNum obj.lat ++
          "</b> <br/> <b>longitude: ",
        "</b></div>",
        by simp [markerOf, popupContent, String.append_assoc]⟩

/-- Witness for C3 at a singleton result list. -/
theorem markerRender_one_marker_per_element_holds :
    (markerRenderEffect (createMap none) (some [eNamed]) "hospital").markers.length = 1 ∧
    containsStr (markerOf "hospital" eNamed).popup "Apollo" ∧
    containsStr (markerOf "hospital" eNamed).popup (jsNum (28 : ℚ)) := by
  have h := markerRender_one_marker_per_element [eNamed] "hospital" (createMap none)
  have hobj := h.2.2 eNamed (by simp)
  exact ⟨h.1, hobj.2.2.1 "Apollo" rfl, hobj.2.2.2.1⟩

/-- Claim C10: an element whose tags object is absent or has no name field
is still rendered as a marker at its coordinates, and its popup literally
reads undefined in the name position; the missing name suppresses nothing
and raises nothing. -/
theorem marker_rendered_without_name (els : List Element) (qb : String)
    (m : MapState) (obj : Element)
    (hname : obj.tags.bind Tags.name = none) (hmem : obj ∈ els) :
    (markerRenderEffect m (some els) qb).markers.length = els.length ∧
    markerOf qb obj ∈ (markerRenderEffect m (some els) qb).markers ∧
    (markerOf qb obj).popup
      = "<div><b>Name: undefined</b> <br/> <b>latitude: " ++ jsNum obj.lat ++
        "</b> <br/> <b>longitude: " ++ jsNum obj.lon ++ "</b></div>" ∧
    containsStr (markerOf qb obj).popup "undefined" ∧
    (markerOf qb obj).pos = (obj.lat, obj.lon) := by
  refine ⟨?_, ?_, ?_, ?_, rfl⟩
  · rw [markerRenderEffect_markers]
    simp [markersFor]
  · rw [markerRenderEffect_markers]
    simp only [markersFor]
    exact List.mem_map.mpr ⟨obj, hmem, rfl⟩
  · simp only [markerOf, popupContent, hname, jsStrOpt]
    rfl
  · exact ⟨"<div><b>Name: ",
      "</b> <br/> <b>latitude: " ++ jsNum obj.lat ++
        "</b> <br/> <b>longitude: " ++ jsNum obj.lon ++ "</b></div>",
      by simp only [markerOf, popupContent, hname, jsStrOpt, String.append_assoc]⟩

/-- Witness for C10 at an element with no tags object. -/
theorem marker_rendered_without_name_holds :
    eNoName.tags.bind Tags.name = none ∧
    markerOf "school" eNoName
      ∈ (markerRenderEffect (createMap none) (some [eNamed, eNoName]) "school").markers ∧
    containsStr (markerOf "school" eNoName).popup "undefined" := by
  have h := marker_rendered_without_name [eNamed, eNoName] "school"
    (createMap none) eNoName rfl (by simp)
  exact ⟨rfl, h.2.1, h.2.2.2.1⟩

/-- The component state before any interaction. -/
def sInit : AppState :=
  { queryBy := ""
    queryResult := some []
    inputFromForm := none
    map := createMap none }

/-- A form submission with an empty name. -/
def vEmptyName : FormValues :=
  { name := "", latitude := some 1, longitude := some 2, type := "hospital" }

/-- The schema result is empty exactly when every field is present: name and
type non-empty strings, latitude and longitude carrying numeric values. -/
theorem validateForm_nil_iff (v : FormValues) :
    validateForm v = [] ↔
      (¬ v.name = "" ∧ v.latitude.isSome ∧ v.longitude.isSome ∧ ¬ v.type = "") := by
  unfold validateForm
  split_ifs <;>
    simp_all [Option.isNone_iff_eq_none, Option.isSome_iff_ne_none]

/-- Counterexample to claim C4 as stated: the schema accepts a submission
whose type is not one of the four enum values, since it only requires type
to be a non-empty string. -/
theorem validationAccepts_type_outside_enum :
    validationAccepts
      { name := "X", latitude := some 28, longitude := some 77, type := "foo" }
        = true ∧
    "foo" ∉ typeOptionValues := by
  decide

/-- Claim C4 (amended): the validation accepts a submission iff the name is
a non-empty string, latitude and longitude are present and numeric, and the
type is a non-empty string (the schema does not restrict type to the four
enum values; only the drop-down limits the choices); a submission with empty
name is rejected with the message Name is required and triggers no fetch. -/
theorem validationAccepts_iff (v : FormValues) :
    (validationAccepts v = true ↔
      (v.name ≠ "" ∧ v.latitude.isSome ∧ v.longitude.isSome ∧ v.type ≠ "")) ∧
    (v.name = "" →
      ("name", "Name is required") ∈ validateForm v ∧
      ∀ (s : AppState) (o : FetchOutcome),
        (submitForm s v o).requests = [] ∧ (submitForm s v o).state = s) := by
  constructor
  · rw [validationAccepts, decide_eq_true_eq, validateForm_nil_iff]
  · intro h
    have hne : validateForm v ≠ [] := by
      intro hnil
      rw [validateForm_nil_iff] at hnil
      exact hnil.1 h
    have hacc : validationAccepts v = false := by
      simp [validationAccepts, hne]
    constructor
    · unfold validateForm
      rw [if_pos h]
      simp
    · intro s o
      simp [submitForm, hacc]

/-- Witness for C4 (amended) at concrete form values. -/
theorem validationAccepts_iff_holds :
    validationAccepts vX = true ∧
    ("name", "Name is required") ∈ validateForm vEmptyName ∧
    (submitForm sSubmitted vEmptyName (FetchOutcome.success (some []))).requests = []
      ∧ (submitForm sSubmitted vEmptyName (FetchOutcome.success (some []))).state
          = sSubmitted := by
  have h1 := (validationAccepts_iff vX).1
  have h2 := (validationAccepts_iff vEmptyName).2 rfl
  exact ⟨h1.mpr (by refine ⟨by decide, by decide, by decide, by decide⟩),
    h2.1, (h2.2 sSubmitted (FetchOutcome.success (some []))).1,
    (h2.2 sSubmitted (FetchOutcome.success (some []))).2⟩

/-- Claim C5: with no submitted coordinates fetchQueryDetail performs no
network request; otherwise it issues exactly one GET parameterized by the
fixed radius 5000, the last submitted latitude and longitude and the current
amenity tag, and the request URL embeds exactly those parameters. -/
theorem fetchQueryDetail_one_request (qb : String) (o : FetchOutcome) :
    (fetchQueryDetail none qb o).2.1 = [] ∧
    ∀ i : FormValues,
      (fetchQueryDetail (some i) qb o).2.1
        = [{ radius := 5000, lat := i.latitude, lon := i.longitude, amenity := qb }] ∧
      requestUrl
          { radius := 5000, lat := i.latitude, lon := i.longitude, amenity := qb }
        = "https://overpass-api.de/api/interpreter?data=[out:json];node(around:5000,"
          ++ jsNumOpt i.latitude ++ "," ++ jsNumOpt i.longitude
          ++ ")[amenity=" ++ qb ++ "];out;" := by
  refine ⟨rfl, ?_⟩
  intro i
  constructor
  · cases o <;> rfl
  · show ("https://overpass-api.de/api/interpreter?data=[out:json];node(around:" ++
      toString (5000 : ℕ) ++ "," ++ jsNumOpt i.latitude ++ "," ++ jsNumOpt i.longitude ++
      ")[amenity=" ++ qb ++ "];out;")
        = "https://overpass-api.de/api/interpreter?data=[out:json];node(around:5000,"
          ++ jsNumOpt i.latitude ++ "," ++ jsNumOpt i.longitude
          ++ ")[amenity=" ++ qb ++ "];out;"
    rw [show ("https://overpass-api.de/api/interpreter?data=[out:json];node(around:" ++
      toString (5000 : ℕ) ++ "," : String)
        = "https://overpass-api.de/api/interpreter?data=[out:json];node(around:5000,"
      from rfl]

/-- Witness for C5 at concrete arguments. -/
theorem fetchQueryDetail_one_request_holds :
    (fetchQueryDetail none "hospital" (FetchOutcome.success (some []))).2.1 = [] ∧
    (fetchQueryDetail (some vX) "hospital" (FetchOutcome.success (some []))).2.1
      = [{ radius := 5000, lat := some 28.7, lon := some 77.1,
           amenity := "hospital" }] := by
  have h := fetchQueryDetail_one_request "hospital" (FetchOutcome.success (some []))
  exact ⟨h.1, (h.2 vX).1⟩

/-- Claim C6: changing the amenity selector only updates queryBy — the
stored submitted form values are untouched — and the triggered re-fetch uses
the same last-submitted coordinates with the new type. -/
theorem selectAmenity_keeps_input (s : AppState) (v : String) (o : FetchOutcome) :
    (selectAmenity s v o).state.inputFromForm = s.inputFromForm ∧
    (selectAmenity s v o).state.queryBy = v ∧
    ∀ i : FormValues, s.inputFromForm = some i →
      (selectAmenity s v o).requests
        = [{ radius := 5000, lat := i.latitude, lon := i.longitude, amenity := v }] := by
  refine ⟨rfl, rfl, ?_⟩
  intro i h
  simp only [selectAmenity, renderCycle]
  rw [h]
  cases o <;> rfl

/-- Witness for C6 at a submitted state and a fresh type. -/
theorem selectAmenity_keeps_input_holds :
    (selectAmenity sSubmitted "school" FetchOutcome.failure).state.inputFromForm
      = sSubmitted.inputFromForm ∧
    (selectAmenity sSubmitted "school" FetchOutcome.failure).requests
      = [{ radius := 5000, lat := some 28.7, lon := some 77.1,
           amenity := "school" }] := by
  have h := selectAmenity_keeps_input sSubmitted "school" FetchOutcome.failure
  exact ⟨h.1, h.2.2 vX rfl⟩

/-- Claim C7: submitting the valid values name X, latitude 28.7, longitude
77.1, type hospital triggers exactly one fetch, and that single request uses
latitude 28.7, longitude 77.1 and amenity hospital. -/
theorem submit_vX_single_fetch (s : AppState) (o : FetchOutcome) :
    (submitForm s vX o).requests
      = [{ radius := 5000, lat := some 28.7, lon := some 77.1,
           amenity := "hospital" }] ∧
    (submitForm s vX o).requests.length = 1 ∧
    (submitForm s vX o).state.queryBy = "hospital" ∧
    (submitForm s vX o).state.inputFromForm = some vX := by
  have hacc : validationAccepts vX = true := by decide
  simp only [submitForm, hacc, if_true, reduceIte]
  refine ⟨?_, ?_, rfl, rfl⟩
  · simp only [renderCycle]
    cases o <;> rfl
  · simp only [renderCycle]
    cases o <;> rfl

/-- Claim C8: every render cycle caused by a change to the amenity type or
the submitted location first destroys the previous map widget and then
creates exactly one new widget, centered on the submitted coordinates when a
submission exists and on the default center otherwise; along that operation
sequence the number of live widgets never exceeds one. -/
theorem map_recreated_per_change (s : AppState) (o : FetchOutcome) :
    (renderCycle s o).mapOps
      = [MapOp.remove, MapOp.create (createMap s.inputFromForm).center] ∧
    (s.inputFromForm = none →
      (createMap s.inputFromForm).center
        = (some defaultCenter.1, some defaultCenter.2)) ∧
    (∀ i : FormValues, s.inputFromForm = some i →
      (createMap s.inputFromForm).center = (i.latitude, i.longitude)) ∧
    ∀ k : ℕ, liveAfter 1 ((renderCycle s o).mapOps.take k) ≤ 1 := by
  refine ⟨rfl, ?_, ?_, ?_⟩
  · intro h
    rw [h]
    rfl
  · intro i h
    rw [h]
    rfl
  · intro k
    match k with
    | 0 => simp [liveAfter]
    | 1 => simp [renderCycle, liveAfter]
    | (n + 2) => simp [renderCycle, liveAfter]

/-- Witness for C8 at the initial and at a submitted state. -/
theorem map_recreated_per_change_holds :
    (createMap sInit.inputFromForm).center
      = (some defaultCenter.1, some defaultCenter.2) ∧
    (createMap sSubmitted.inputFromForm).center = (some 28.7, some 77.1) ∧
    liveAfter 1 ((renderCycle sSubmitted FetchOutcome.failure).mapOps.take 1) ≤ 1 := by
  refine ⟨(map_recreated_per_change sInit FetchOutcome.failure).2.1 rfl, ?_,
    (map_recreated_per_change sSubmitted FetchOutcome.failure).2.2.2 1⟩
  exact (map_recreated_per_change sSubmitted FetchOutcome.failure).2.2.1 vX rfl
